import Mathlib

/-
  Verification development for the exam-hub-online repository.

  Shallow embedding of the behaviourally relevant parts of the source:
  - the TakeExam page (timer effect, goToQuestion, submitExam),
  - the signUp function of the auth hook,
  - the ExamEditor page (handleCategoryChange, handleSave).

  Database tables (exam_results, student_answers, questions, user_roles) are
  modelled as lists of row records; each remote write whose outcome the client
  cannot control is an explicit parameter of the embedded function (an
  Option id for an insert that returns the fresh row id, a Bool for a write
  whose only observable outcome is success or failure), so that both the
  success path and the failure path of the source's control flow are covered.
-/

namespace ExamHub

/-- Question row as loaded by the TakeExam page (ordered by order_index). -/
structure Question where
  id : String
  question_text : String
  option_a : String
  option_b : String
  option_c : String
  option_d : String
  correct_option : String
  order_index : Nat
deriving Repr, DecidableEq

/-- Exam row as loaded by the TakeExam page. -/
structure Exam where
  id : String
  title : String
  description : Option String
  category : String
  duration_minutes : Nat
deriving Repr, DecidableEq

/-- Row of the exam_results table as inserted by submitExam. -/
structure AttemptRow where
  user_id : String
  exam_id : String
  score : Nat
  total_questions : Nat
  correct_answers : Nat
  time_taken_seconds : Nat
deriving Repr, DecidableEq

/-- Row of the student_answers table as inserted by submitExam. -/
structure AnswerRow where
  result_id : String
  question_id : String
  selected_option : Option String
  is_correct : Bool
deriving Repr, DecidableEq

/-- The two tables written by the TakeExam page. exam_results rows are keyed
by the id the insert returned. -/
structure Db where
  exam_results : List (String × AttemptRow)
  student_answers : List AnswerRow
deriving Repr, DecidableEq

/-- Component state of the TakeExam page. `answers` models the
Record<string, string> object (`answers[q.id]` is the first value found for
the key). `timerActive` records whether the one-second interval of the
timer effect is currently registered. `autoSubmits` is a history variable
counting how many times the tick handler invoked handleAutoSubmit; the
source has no such counter, it is carried to state the exactly-once
property. -/
structure EngineState where
  user : Option String
  exam : Option Exam
  questions : List Question
  currentIndex : Nat
  answers : List (String × String)
  timeLeft : Nat
  timerActive : Bool
  submitting : Bool
  autoSubmits : Nat
deriving Repr, DecidableEq

/-- JS object read `answers[q.id]`: the value stored for the key, if any. -/
def lookupAnswer (answers : List (String × String)) (key : String) : Option String :=
  (answers.find? (fun p => p.1 == key)).map (fun p => p.2)

/-- JS `v || null`: a falsy value (absent or empty string) becomes null. -/
def jsOrNull (v : Option String) : Option String :=
  match v with
  | some s => if s == "" then none else some s
  | none => none

/-- The correctCount loop of submitExam: the number of questions whose
recorded answer equals the question's correct_option. -/
def correctCount (questions : List Question) (answers : List (String × String)) : Nat :=
  questions.countP (fun q => lookupAnswer answers q.id == some q.correct_option)

/-- Math.round((c / n) * 100) of submitExam, as exact rational
rounding half up: floor(100 * c / n + 1 / 2) = (200 * c + n) / (2 * n)
in natural division. (For n = 0 the source computes NaN and the insert
cannot succeed; every claim about the score assumes a non-empty question
list.) -/
def computeScore (c n : Nat) : Nat :=
  (200 * c + n) / (2 * n)

/-- The attempt row submitExam inserts into exam_results. -/
def attemptRowOf (s : EngineState) (uid : String) (examId : String)
    (timeTaken : Nat) : AttemptRow :=
  { user_id := uid
    exam_id := examId
    score := computeScore (correctCount s.questions s.answers) s.questions.length
    total_questions := s.questions.length
    correct_answers := correctCount s.questions s.answers
    time_taken_seconds := timeTaken }

/-- The answersToInsert batch of submitExam: one student_answers row per
loaded question, in question order. -/
def answerRowsOf (s : EngineState) (rid : String) : List AnswerRow :=
  s.questions.map (fun q =>
    { result_id := rid
      question_id := q.id
      selected_option := jsOrNull (lookupAnswer s.answers q.id)
      is_correct := lookupAnswer s.answers q.id == some q.correct_option })

/-- submitExam of the TakeExam page. `resultInsert` is the outcome of the
exam_results insert (the fresh row id on success, none on error);
`answersInsertOk` is the outcome of the student_answers insert, whose error
the source discards. Returns the new component state, the new database
state, and the result id navigated to (none when no navigation happened).
Mirrors the source control flow: early return when user or exam is null;
setSubmitting(true); compute aggregates; insert the exam_results row and
throw to the catch block on error; build answersToInsert and insert it with
the error ignored; navigate; setSubmitting(false) in the finally block. -/
def submitExam (s : EngineState) (db : Db) (resultInsert : Option String)
    (answersInsertOk : Bool) (timeTaken : Nat) :
    EngineState × Db × Option String :=
  match s.user, s.exam with
  | some uid, some exam =>
    match resultInsert with
    | some rid =>
      let db := { db with
        exam_results := db.exam_results ++ [(rid, attemptRowOf s uid exam.id timeTaken)] }
      let db := if answersInsertOk then
          { db with student_answers := db.student_answers ++ answerRowsOf s rid }
        else db
      ({ s with submitting := false }, db, some rid)
    | none =>
      ({ s with submitting := false }, db, none)
  | _, _ => (s, db, none)

/-- One firing of the interval registered by the timer effect, together with
the effect re-run that the setTimeLeft state change schedules. When the
previous value is at most 1 the tick clears its own interval, invokes
handleAutoSubmit and leaves timeLeft at 0 (the re-run effect sees
timeLeft <= 0 and registers no new interval); otherwise timeLeft is
decremented and the re-run effect registers a fresh interval because the
new value is still positive. When no interval is registered nothing fires. -/
def tick (s : EngineState) : EngineState :=
  if s.timerActive then
    if s.timeLeft ≤ 1 then
      { s with timeLeft := 0, timerActive := false, autoSubmits := s.autoSubmits + 1 }
    else
      { s with timeLeft := s.timeLeft - 1, timerActive := decide (0 < s.timeLeft - 1) }
  else s

/-- The cleanup function of the timer effect, run on unmount: clearInterval. -/
def unmountCleanup (s : EngineState) : EngineState :=
  { s with timerActive := false }

/-- goToQuestion of the TakeExam page: move currentIndex iff the requested
index is inside [0, questions.length). The request index is an arbitrary
integer (the footer calls goToQuestion(currentIndex - 1)). -/
def goToQuestion (s : EngineState) (index : Int) : EngineState :=
  if 0 ≤ index ∧ index < (s.questions.length : Int) then
    { s with currentIndex := index.toNat }
  else s

/-- The submit action of the confirmation dialog carries
disabled={submitting}: it can only be activated while no submission is in
flight. -/
def submitButtonEnabled (s : EngineState) : Bool :=
  !s.submitting

end ExamHub

namespace ExamHub

/-- Row of the user_roles table. -/
structure RoleRow where
  user_id : String
  role : String
deriving Repr, DecidableEq

/-- State touched by signUp: the identity provider's accounts and the
user_roles table. -/
structure AuthDb where
  authUsers : List String
  user_roles : List RoleRow
deriving Repr, DecidableEq

/-- The error message signUp returns when an admin role row already exists. -/
def adminAlreadyExistsMsg : String :=
  "An admin account already exists. Only one admin is allowed."

/-- signUp of the auth hook. `authResult` is the outcome of
supabase.auth.signUp (an error message, or on success the created user id —
none models data.user being null); `roleInsertError` is the outcome of the
user_roles insert. Returns the new state and the error returned to the
caller (none on success). Mirrors the source: when the requested role is
admin, first query user_roles for role = admin with limit 1 and reject the
signup before any write when a row comes back; then create the account;
then insert the role row. -/
def signUp (db : AuthDb) (userRole : String)
    (authResult : Except String (Option String))
    (roleInsertError : Option String) : AuthDb × Option String :=
  if userRole = "admin" ∧
      0 < ((db.user_roles.filter (fun r => r.role == "admin")).take 1).length then
    (db, some adminAlreadyExistsMsg)
  else
    match authResult with
    | .error e => (db, some e)
    | .ok none => (db, none)
    | .ok (some uid) =>
      let db := { db with authUsers := db.authUsers ++ [uid] }
      match roleInsertError with
      | some e => (db, some e)
      | none =>
        ({ db with user_roles := db.user_roles ++ [{ user_id := uid, role := userRole }] },
          none)

end ExamHub

namespace ExamHub

/-- Exam categories of the ExamEditor page. -/
inductive ExamCategory
  | basic
  | prelims
  | mains
deriving Repr, DecidableEq

/-- The DURATION_BY_CATEGORY constant of the ExamEditor page. -/
def DURATION_BY_CATEGORY : ExamCategory → Nat
  | .basic => 40
  | .prelims => 20
  | .mains => 30

/-- The exam form state of the ExamEditor page. -/
structure ExamForm where
  title : String
  description : String
  category : ExamCategory
  duration_minutes : Nat
  is_active : Bool
deriving Repr, DecidableEq

/-- handleCategoryChange of the ExamEditor page: selecting a category also
resets the duration to that category's default. -/
def handleCategoryChange (f : ExamForm) (category : ExamCategory) : ExamForm :=
  { f with category := category, duration_minutes := DURATION_BY_CATEGORY category }

/-- A question line of the editor's list. -/
structure EditorQuestion where
  id : Option String
  question_text : String
  option_a : String
  option_b : String
  option_c : String
  option_d : String
  correct_option : String
  order_index : Nat
deriving Repr, DecidableEq

/-- Stored row of the questions table. -/
structure QuestionRow where
  exam_id : String
  question_text : String
  option_a : String
  option_b : String
  option_c : String
  option_d : String
  correct_option : String
  order_index : Nat
deriving Repr, DecidableEq

/-- Stored row of the exams table (fields written by the ExamEditor). -/
structure ExamRowStored where
  title : String
  description : Option String
  category : ExamCategory
  duration_minutes : Nat
  is_active : Bool
  created_by : Option String
deriving Repr, DecidableEq

/-- The two tables written by the ExamEditor page. -/
structure AdminDb where
  exams : List (String × ExamRowStored)
  questions : List QuestionRow
deriving Repr, DecidableEq

/-- One element of the questionsToInsert batch of handleSave: the editor
question at list position i, stored with order_index = i (the question's own
order_index field is ignored). -/
def toQuestionRow (examId : String) (i : Nat) (q : EditorQuestion) : QuestionRow :=
  { exam_id := examId
    question_text := q.question_text
    option_a := q.option_a
    option_b := q.option_b
    option_c := q.option_c
    option_d := q.option_d
    correct_option := q.correct_option
    order_index := i }

/-- The questionsToInsert batch built by map with index, starting at i. -/
def questionRowsFrom (examId : String) (i : Nat) :
    List EditorQuestion → List QuestionRow
  | [] => []
  | q :: rest => toQuestionRow examId i q :: questionRowsFrom examId (i + 1) rest

/-- The questionsToInsert batch of handleSave. -/
def questionsToInsert (examId : String) (qs : List EditorQuestion) : List QuestionRow :=
  questionRowsFrom examId 0 qs

/-- JS String.prototype.trim: drop whitespace from both ends, computed on the
character list so that it evaluates on concrete strings. -/
def jsTrim (s : String) : String :=
  ⟨(((s.data.dropWhile Char.isWhitespace).reverse.dropWhile Char.isWhitespace).reverse)⟩

/-- The per-question validation of handleSave: question text and all four
options non-empty after trimming. -/
def questionComplete (q : EditorQuestion) : Bool :=
  jsTrim q.question_text != "" && jsTrim q.option_a != "" && jsTrim q.option_b != "" &&
    jsTrim q.option_c != "" && jsTrim q.option_d != ""

/-- The exams-table update of the edit path of handleSave. -/
def updateExamRow (row : ExamRowStored) (exam : ExamForm) : ExamRowStored :=
  { row with
    title := exam.title
    description := jsOrNull (some exam.description)
    category := exam.category
    duration_minutes := exam.duration_minutes
    is_active := exam.is_active }

/-- handleSave of the ExamEditor page. `editId` is the route parameter (some
id means the edit path, none the create path); `updateOk` is the outcome of
the exams update; `deleteOk` is the outcome of the questions delete, whose
result the source discards without looking at it; `newExamId` is the
outcome of the exams insert on the create path; `insertQuestionsOk` is the
outcome of the questions insert. Returns the new database state and whether
the save was reported successful. Mirrors the source: validate title,
non-empty question list and per-question fields before any write; on the
edit path update the exam (throw on error), issue the delete of the exam's
existing question rows (error ignored), then insert the rebuilt question
list with order_index = list position (throw on error). -/
def handleSave (db : AdminDb) (userId : Option String) (editId : Option String)
    (exam : ExamForm) (qs : List EditorQuestion)
    (updateOk : Bool) (deleteOk : Bool) (newExamId : Option String)
    (insertQuestionsOk : Bool) : AdminDb × Bool :=
  if jsTrim exam.title = "" then (db, false)
  else if qs = [] then (db, false)
  else if ¬ qs.all questionComplete then (db, false)
  else
    match editId with
    | some id =>
      if updateOk then
        let db := { db with
          exams := db.exams.map (fun p => if p.1 == id then (p.1, updateExamRow p.2 exam) else p) }
        let db := if deleteOk then
            { db with questions := db.questions.filter (fun row => !(row.exam_id == id)) }
          else db
        if insertQuestionsOk then
          ({ db with questions := db.questions ++ questionsToInsert id qs }, true)
        else (db, false)
      else (db, false)
    | none =>
      match newExamId with
      | some id =>
        let db := { db with
          exams := db.exams ++ [(id,
            { title := exam.title
              description := jsOrNull (some exam.description)
              category := exam.category
              duration_minutes := exam.duration_minutes
              is_active := exam.is_active
              created_by := userId })] }
        if insertQuestionsOk then
          ({ db with questions := db.questions ++ questionsToInsert id qs }, true)
        else (db, false)
      | none => (db, false)

end ExamHub

namespace ExamHub

/- Concrete instances used by the witnesses and the counterexamples. The
engine state below is the spec's three-question scenario: Q1 answered
correctly, Q2 answered wrongly, Q3 unanswered. -/

def sampleExam : Exam :=
  { id := "e1", title := "Sample", description := none, category := "prelims",
    duration_minutes := 20 }

def sampleQ1 : Question :=
  { id := "q1", question_text := "one", option_a := "a", option_b := "b",
    option_c := "c", option_d := "d", correct_option := "A", order_index := 0 }

def sampleQ2 : Question :=
  { id := "q2", question_text := "two", option_a := "a", option_b := "b",
    option_c := "c", option_d := "d", correct_option := "C", order_index := 1 }

def sampleQ3 : Question :=
  { id := "q3", question_text := "three", option_a := "a", option_b := "b",
    option_c := "c", option_d := "d", correct_option := "B", order_index := 2 }

def sampleState : EngineState :=
  { user := some "u1", exam := some sampleExam,
    questions := [sampleQ1, sampleQ2, sampleQ3], currentIndex := 0,
    answers := [("q1", "A"), ("q2", "B")], timeLeft := 100,
    timerActive := true, submitting := false, autoSubmits := 0 }

def emptyDb : Db := { exam_results := [], student_answers := [] }

/-- The sample state with a submission already in flight. -/
def inFlightState : EngineState := { sampleState with submitting := true }

/-- The sample state three ticks away from the deadline. -/
def timerState3 : EngineState := { sampleState with timeLeft := 3 }

def adminRole0 : RoleRow := { user_id := "a1", role := "admin" }

def authDb0 : AuthDb := { authUsers := ["a1"], user_roles := [adminRole0] }

def storedExam0 : ExamRowStored :=
  { title := "Sample", description := none, category := .basic,
    duration_minutes := 40, is_active := true, created_by := some "a1" }

/-- A question row previously stored for exam e1. -/
def oldRow : QuestionRow :=
  { exam_id := "e1", question_text := "old q", option_a := "1", option_b := "2",
    option_c := "3", option_d := "4", correct_option := "A", order_index := 0 }

def adminDb0 : AdminDb := { exams := [("e1", storedExam0)], questions := [oldRow] }

/-- An editor question whose own order_index field (5) differs from its list
position (0). -/
def editorQ1 : EditorQuestion :=
  { id := none, question_text := "new q", option_a := "1", option_b := "2",
    option_c := "3", option_d := "4", correct_option := "B", order_index := 5 }

def editorForm0 : ExamForm :=
  { title := "Edited", description := "", category := .prelims,
    duration_minutes := 20, is_active := true }

end ExamHub

namespace ExamHub

/-- Helper: the exam_results table after a submitExam run whose insert
succeeded: exactly one attempt row is appended. -/
theorem submitExam_exam_results_eq (s : EngineState) (db : Db) (rid : String)
    (aok : Bool) (t : Nat) (uid : String) (ex : Exam)
    (hu : s.user = some uid) (he : s.exam = some ex) :
    (submitExam s db (some rid) aok t).2.1.exam_results =
      db.exam_results ++ [(rid, attemptRowOf s uid ex.id t)] := by
  unfold submitExam
  rw [hu, he]
  cases aok <;> rfl

/-- Helper: the student_answers table after a submitExam run whose two
inserts succeeded: the answersToInsert batch is appended. -/
theorem submitExam_student_answers_eq (s : EngineState) (db : Db) (rid : String)
    (t : Nat) (uid : String) (ex : Exam)
    (hu : s.user = some uid) (he : s.exam = some ex) :
    (submitExam s db (some rid) true t).2.1.student_answers =
      db.student_answers ++ answerRowsOf s rid := by
  unfold submitExam
  rw [hu, he]
  rfl

/-- Helper: any submitExam run that got past the user/exam guard leaves the
component state unchanged except that the finally block resets the
submitting flag. -/
theorem submitExam_fst_eq (s : EngineState) (db : Db) (rins : Option String)
    (aok : Bool) (t : Nat) (uid : String) (ex : Exam)
    (hu : s.user = some uid) (he : s.exam = some ex) :
    (submitExam s db rins aok t).1 = { s with submitting := false } := by
  unfold submitExam
  rw [hu, he]
  cases rins <;> cases aok <;> rfl

/-- Helper: submitExam never calls clearInterval, so the timer interval
registration is whatever it was before the call. -/
theorem submitExam_timerActive (s : EngineState) (db : Db) (rins : Option String)
    (aok : Bool) (t : Nat) :
    ((submitExam s db rins aok t).1).timerActive = s.timerActive := by
  unfold submitExam
  cases hu : s.user <;> cases he : s.exam <;> cases rins <;> cases aok <;> rfl

/-- Helper: the natural-division form of the stored score equals rounding
100 * c / n half up, the exact-arithmetic reading of
Math.round((c / n) * 100). -/
theorem computeScore_eq_round (c n : Nat) (hn : 1 ≤ n) :
    (computeScore c n : ℤ) = round ((100 * (c : ℚ)) / (n : ℚ)) := by
  have hn0 : (n : ℚ) ≠ 0 := Nat.cast_ne_zero.mpr (by omega)
  rw [round_eq]
  have h : (100 * (c : ℚ)) / (n : ℚ) + 1 / 2
      = ((200 * c + n : ℕ) : ℚ) / ((2 * n : ℕ) : ℚ) := by
    push_cast
    field_simp
    ring
  rw [h, Rat.floor_natCast_div_natCast]
  unfold computeScore
  exact (Int.natCast_div (200 * c + n) (2 * n)).symm

/-- Helper: the stored score never exceeds 100 when at most every question
was answered correctly. -/
theorem computeScore_le_100 (c n : Nat) (hc : c ≤ n) : computeScore c n ≤ 100 := by
  unfold computeScore
  rcases Nat.eq_zero_or_pos n with h | h
  · subst h
    have hc0 : c = 0 := by omega
    subst hc0
    simp
  · have h2 : (0 : ℕ) < 2 * n := by omega
    have hlt : (200 * c + n) / (2 * n) < 101 := by
      rw [Nat.div_lt_iff_lt_mul h2]
      omega
    omega

/-- Helper: a cleared interval never fires again. -/
theorem tick_inactive (s : EngineState) (h : s.timerActive = false) : tick s = s := by
  simp [tick, h]

/-- Helper: from n + 1 remaining seconds with the interval registered,
n + 1 ticks reach zero, fire the automatic submission exactly once and clear
the interval. -/
theorem tick_countdown (n : Nat) : ∀ (s : EngineState),
    s.timerActive = true → s.timeLeft = n + 1 →
    tick^[n + 1] s =
      { s with timeLeft := 0, timerActive := false,
               autoSubmits := s.autoSubmits + 1 } := by
  induction n with
  | zero =>
    intro s hact htl
    rw [Function.iterate_one]
    simp [tick, hact, htl]
  | succ k ih =>
    intro s hact htl
    rw [Function.iterate_succ_apply]
    have h1 : tick s = { s with timeLeft := k + 1, timerActive := true } := by
      simp [tick, hact, htl]
    rw [h1]
    exact ih { s with timeLeft := k + 1, timerActive := true } rfl rfl

end ExamHub

namespace ExamHub

/-- Helper: when no stored answer value is the empty string (the UI only
ever stores A, B, C or D), the JS falsy-to-null coercion is the identity on
the looked-up selection. -/
theorem jsOrNull_lookup (answers : List (String × String)) (key : String)
    (hne : ∀ p ∈ answers, p.2 ≠ "") :
    jsOrNull (lookupAnswer answers key) = lookupAnswer answers key := by
  unfold lookupAnswer jsOrNull
  cases hfind : answers.find? (fun p => p.1 == key) with
  | none => rfl
  | some p =>
    have hmem : p ∈ answers := List.mem_of_find?_eq_some hfind
    have hp : (p.2 == "") = false := beq_eq_false_iff_ne.mpr (hne p hmem)
    simp [hp]

/-- C1 counterexample: the claim says a second invocation of submitExam
while a submission is already in flight (submitting = true) is a no-op that
changes no state and creates no second Attempt row. In the source,
submitExam never reads the submitting flag: invoked on a state with
submitting = true it runs in full and inserts another exam_results row. -/
theorem submitExam_reentry_not_noop_cex :
    inFlightState.submitting = true ∧
    (submitExam inFlightState emptyDb (some "r2") true 5).2.1 ≠ emptyDb ∧
    (submitExam inFlightState emptyDb (some "r2") true 5).2.1.exam_results.length =
      emptyDb.exam_results.length + 1 := by
  decide

/-- C1 (amended): submitExam performs no re-entry check of the submitting
flag; invoked while a submission is already in flight it proceeds and, when
the exam_results insert succeeds, creates another Attempt row. The only
duplicate protection is in the UI, where the confirmation dialog's submit
action is rendered disabled while submitting is set. -/
theorem submitExam_no_reentry_guard (s : EngineState) (db : Db) (rid : String)
    (aok : Bool) (t : Nat) (uid : String) (ex : Exam)
    (hu : s.user = some uid) (he : s.exam = some ex)
    (hs : s.submitting = true) :
    (submitExam s db (some rid) aok t).2.1.exam_results =
      db.exam_results ++ [(rid, attemptRowOf s uid ex.id t)] ∧
    submitButtonEnabled s = false := by
  refine ⟨submitExam_exam_results_eq s db rid aok t uid ex hu he, ?_⟩
  simp [submitButtonEnabled, hs]

/-- C1 witness: the amended claim at the in-flight sample state. -/
theorem submitExam_no_reentry_guard_witness :
    inFlightState.user = some "u1" ∧ inFlightState.exam = some sampleExam ∧
    inFlightState.submitting = true ∧
    ((submitExam inFlightState emptyDb (some "r2") true 5).2.1.exam_results =
        emptyDb.exam_results ++
          [("r2", attemptRowOf inFlightState "u1" sampleExam.id 5)] ∧
      submitButtonEnabled inFlightState = false) :=
  ⟨rfl, rfl, rfl,
    submitExam_no_reentry_guard inFlightState emptyDb "r2" true 5 "u1" sampleExam
      rfl rfl rfl⟩

/-- C2: a submission over a non-empty question list creates one Attempt
whose correct_answers counts the questions whose recorded answer equals
their correct_option, and whose score is round(100 * correct_answers / N),
rounding half up — the exact-arithmetic reading of Math.round. -/
theorem submitExam_attempt_aggregates (s : EngineState) (db : Db) (rid : String)
    (aok : Bool) (t : Nat) (uid : String) (ex : Exam)
    (hu : s.user = some uid) (he : s.exam = some ex) (hn : s.questions ≠ []) :
    ∃ a : AttemptRow,
      (submitExam s db (some rid) aok t).2.1.exam_results =
        db.exam_results ++ [(rid, a)] ∧
      a.correct_answers =
        s.questions.countP
          (fun q => lookupAnswer s.answers q.id == some q.correct_option) ∧
      a.total_questions = s.questions.length ∧
      (a.score : ℤ) =
        round ((100 * (a.correct_answers : ℚ)) / (s.questions.length : ℚ)) := by
  refine ⟨attemptRowOf s uid ex.id t,
    submitExam_exam_results_eq s db rid aok t uid ex hu he, rfl, rfl, ?_⟩
  exact computeScore_eq_round _ _ (List.length_pos.mpr hn)

/-- C2 witness: the spec's three-question scenario (one answered correctly,
one wrongly, one unanswered); the created Attempt is total_questions 3,
correct_answers 1, score 33. -/
theorem submitExam_attempt_aggregates_witness :
    sampleState.user = some "u1" ∧ sampleState.exam = some sampleExam ∧
    sampleState.questions ≠ [] ∧
    (∃ a : AttemptRow,
      (submitExam sampleState emptyDb (some "r1") true 60).2.1.exam_results =
        emptyDb.exam_results ++ [("r1", a)] ∧
      a.correct_answers =
        sampleState.questions.countP
          (fun q => lookupAnswer sampleState.answers q.id == some q.correct_option) ∧
      a.total_questions = sampleState.questions.length ∧
      (a.score : ℤ) =
        round ((100 * (a.correct_answers : ℚ)) / (sampleState.questions.length : ℚ))) ∧
    (submitExam sampleState emptyDb (some "r1") true 60).2.1.exam_results =
      [("r1", { user_id := "u1", exam_id := "e1", score := 33, total_questions := 3,
                correct_answers := 1, time_taken_seconds := 60 })] :=
  ⟨rfl, rfl, by decide,
    submitExam_attempt_aggregates sampleState emptyDb "r1" true 60 "u1" sampleExam
      rfl rfl (by decide),
    by decide⟩

/-- C3: a successful submission creates exactly one student_answers row per
loaded question, in question order: each row references the created attempt
and its question, carries the recorded selection (none when unanswered; the
hypothesis that no stored value is the empty string reflects that the page
only ever stores A, B, C or D), and a precomputed is_correct flag that is
true iff the selection equals the question's correct_option. -/
theorem submitExam_answer_rows (s : EngineState) (db : Db) (rid : String)
    (t : Nat) (uid : String) (ex : Exam)
    (hu : s.user = some uid) (he : s.exam = some ex)
    (hne : ∀ p ∈ s.answers, p.2 ≠ "") :
    ∃ rows : List AnswerRow,
      (submitExam s db (some rid) true t).2.1.student_answers =
        db.student_answers ++ rows ∧
      rows.length = s.questions.length ∧
      ∀ i (hi : i < s.questions.length) (hr : i < rows.length),
        (rows.get ⟨i, hr⟩).result_id = rid ∧
        (rows.get ⟨i, hr⟩).question_id = (s.questions.get ⟨i, hi⟩).id ∧
        (rows.get ⟨i, hr⟩).selected_option =
          lookupAnswer s.answers (s.questions.get ⟨i, hi⟩).id ∧
        ((rows.get ⟨i, hr⟩).is_correct = true ↔
          lookupAnswer s.answers (s.questions.get ⟨i, hi⟩).id =
            some (s.questions.get ⟨i, hi⟩).correct_option) := by
  refine ⟨answerRowsOf s rid,
    submitExam_student_answers_eq s db rid t uid ex hu he, by simp [answerRowsOf], ?_⟩
  intro i hi hr
  have hrow : (answerRowsOf s rid).get ⟨i, hr⟩ =
      { result_id := rid
        question_id := (s.questions.get ⟨i, hi⟩).id
        selected_option :=
          jsOrNull (lookupAnswer s.answers (s.questions.get ⟨i, hi⟩).id)
        is_correct := lookupAnswer s.answers (s.questions.get ⟨i, hi⟩).id ==
          some (s.questions.get ⟨i, hi⟩).correct_option } := by
    simp [answerRowsOf, List.get_eq_getElem, List.getElem_map]
  rw [hrow]
  exact ⟨rfl, rfl, jsOrNull_lookup s.answers _ hne, beq_iff_eq⟩

/-- C3 witness: the three-question scenario creates exactly three rows. -/
theorem submitExam_answer_rows_witness :
    sampleState.user = some "u1" ∧ sampleState.exam = some sampleExam ∧
    (∀ p ∈ sampleState.answers, p.2 ≠ "") ∧
    (∃ rows : List AnswerRow,
      (submitExam sampleState emptyDb (some "r1") true 60).2.1.student_answers =
        emptyDb.student_answers ++ rows ∧
      rows.length = sampleState.questions.length ∧
      ∀ i (hi : i < sampleState.questions.length) (hr : i < rows.length),
        (rows.get ⟨i, hr⟩).result_id = "r1" ∧
        (rows.get ⟨i, hr⟩).question_id = (sampleState.questions.get ⟨i, hi⟩).id ∧
        (rows.get ⟨i, hr⟩).selected_option =
          lookupAnswer sampleState.answers (sampleState.questions.get ⟨i, hi⟩).id ∧
        ((rows.get ⟨i, hr⟩).is_correct = true ↔
          lookupAnswer sampleState.answers (sampleState.questions.get ⟨i, hi⟩).id =
            some (sampleState.questions.get ⟨i, hi⟩).correct_option)) :=
  ⟨rfl, rfl, by decide,
    submitExam_answer_rows sampleState emptyDb "r1" 60 "u1" sampleExam rfl rfl
      (by decide)⟩

end ExamHub

namespace ExamHub

/-- C4 counterexample: the claim says the one-second tick is cancelled on
manual submission. In the source, starting a manual submission does not
clear the interval — submitExam issues no clearInterval, and the timer
effect's cleanup only runs on unmount or when timeLeft changes. After
running the submission path on a state whose interval is registered, the
interval is still registered. -/
theorem manual_submit_does_not_cancel_tick_cex :
    sampleState.timerActive = true ∧
    ((submitExam sampleState emptyDb (some "r3") true 5).1).timerActive = true := by
  decide

/-- C4 (amended): with the interval registered, autoSubmits at zero and
n ≥ 1 seconds remaining, n ticks reach zero and fire the automatic
submission exactly once; the tick that reaches zero clears its own interval
and afterwards no number of further ticks changes anything, so duplicate
auto-submission cannot occur; the unmount cleanup also clears the interval.
Invoking the submission path itself, however, does not clear the interval:
the tick is cancelled on unmount and on reaching zero, but not at the
moment a manual submission starts. -/
theorem auto_submit_exactly_once (s : EngineState) (n : Nat)
    (hact : s.timerActive = true) (htl : s.timeLeft = n) (hn : 1 ≤ n)
    (h0 : s.autoSubmits = 0) :
    (tick^[n] s).autoSubmits = 1 ∧
    (tick^[n] s).timerActive = false ∧
    (tick^[n] s).timeLeft = 0 ∧
    (∀ m : Nat, tick^[m] (tick^[n] s) = tick^[n] s) ∧
    (unmountCleanup s).timerActive = false ∧
    (∀ (db : Db) (rins : Option String) (aok : Bool) (t : Nat),
      ((submitExam s db rins aok t).1).timerActive = true) := by
  obtain ⟨k, rfl⟩ : ∃ k, n = k + 1 := ⟨n - 1, by omega⟩
  have h := tick_countdown k s hact htl
  rw [h]
  refine ⟨by simp [h0], rfl, rfl, ?_, rfl, ?_⟩
  · intro m
    exact Function.iterate_fixed (tick_inactive _ rfl) m
  · intro db rins aok t
    rw [submitExam_timerActive]
    exact hact

/-- C4 witness: the sample state three seconds before the deadline. -/
theorem auto_submit_exactly_once_witness :
    timerState3.timerActive = true ∧ timerState3.timeLeft = 3 ∧
    timerState3.autoSubmits = 0 ∧
    ((tick^[3] timerState3).autoSubmits = 1 ∧
      (tick^[3] timerState3).timerActive = false ∧
      (tick^[3] timerState3).timeLeft = 0 ∧
      (∀ m : Nat, tick^[m] (tick^[3] timerState3) = tick^[3] timerState3) ∧
      (unmountCleanup timerState3).timerActive = false ∧
      (∀ (db : Db) (rins : Option String) (aok : Bool) (t : Nat),
        ((submitExam timerState3 db rins aok t).1).timerActive = true)) :=
  ⟨rfl, rfl, rfl,
    auto_submit_exactly_once timerState3 3 rfl rfl (by decide) rfl⟩

/-- C5: when the exam_results insert fails, submitExam throws to its catch
block before the answersToInsert batch is built or attempted: the database
is unchanged (no partial Attempt/Answer rows), the component state keeps
answers, currentIndex, timeLeft and the timer registration, and the finally
block resets the submitting flag so the user can retry. -/
theorem submitExam_result_insert_failure_safe (s : EngineState) (db : Db)
    (aok : Bool) (t : Nat) (uid : String) (ex : Exam)
    (hu : s.user = some uid) (he : s.exam = some ex) :
    submitExam s db none aok t = ({ s with submitting := false }, db, none) := by
  unfold submitExam
  rw [hu, he]

/-- C5 witness: a failing insert on the in-flight sample state. -/
theorem submitExam_result_insert_failure_safe_witness :
    inFlightState.user = some "u1" ∧ inFlightState.exam = some sampleExam ∧
    submitExam inFlightState emptyDb none true 7 =
      ({ inFlightState with submitting := false }, emptyDb, none) :=
  ⟨rfl, rfl,
    submitExam_result_insert_failure_safe inFlightState emptyDb true 7 "u1"
      sampleExam rfl rfl⟩

/-- C6: goToQuestion moves currentIndex to any requested index inside
[0, questions.length); an out-of-range request is silently ignored — no
error and the entire state, in particular currentIndex, is unchanged. -/
theorem goToQuestion_spec (s : EngineState) (index : Int) :
    (0 ≤ index ∧ index < (s.questions.length : Int) →
      goToQuestion s index = { s with currentIndex := index.toNat }) ∧
    (¬(0 ≤ index ∧ index < (s.questions.length : Int)) →
      goToQuestion s index = s) := by
  constructor
  · intro h
    simp [goToQuestion, h]
  · intro h
    simp [goToQuestion, h]

/-- C6 witness: on the three-question sample state, index 2 is taken, index
3 and index -1 are ignored. -/
theorem goToQuestion_spec_witness :
    goToQuestion sampleState 2 = { sampleState with currentIndex := (2 : Int).toNat } ∧
    goToQuestion sampleState 3 = sampleState ∧
    goToQuestion sampleState (-1) = sampleState :=
  ⟨(goToQuestion_spec sampleState 2).1 (by decide),
    (goToQuestion_spec sampleState 3).2 (by decide),
    (goToQuestion_spec sampleState (-1)).2 (by decide)⟩

/-- C9: every Attempt created by a submission over a non-empty question
list satisfies correct_answers ≤ total_questions, total_questions = number
of loaded questions, and score ≤ 100; the lower bounds 0 ≤ correct_answers
and 0 ≤ score are immediate because both fields are naturals. -/
theorem submitExam_attempt_invariants (s : EngineState) (db : Db) (rid : String)
    (aok : Bool) (t : Nat) (uid : String) (ex : Exam)
    (hu : s.user = some uid) (he : s.exam = some ex) (hn : s.questions ≠ []) :
    ∃ a : AttemptRow,
      (submitExam s db (some rid) aok t).2.1.exam_results =
        db.exam_results ++ [(rid, a)] ∧
      a.correct_answers ≤ a.total_questions ∧
      a.total_questions = s.questions.length ∧
      a.score ≤ 100 := by
  refine ⟨attemptRowOf s uid ex.id t,
    submitExam_exam_results_eq s db rid aok t uid ex hu he, ?_, rfl, ?_⟩
  · exact List.countP_le_length _
  · exact computeScore_le_100 _ _ (List.countP_le_length _)

/-- C9 witness: the invariants at the three-question sample state. -/
theorem submitExam_attempt_invariants_witness :
    sampleState.user = some "u1" ∧ sampleState.exam = some sampleExam ∧
    sampleState.questions ≠ [] ∧
    (∃ a : AttemptRow,
      (submitExam sampleState emptyDb (some "r4") true 15).2.1.exam_results =
        emptyDb.exam_results ++ [("r4", a)] ∧
      a.correct_answers ≤ a.total_questions ∧
      a.total_questions = sampleState.questions.length ∧
      a.score ≤ 100) :=
  ⟨rfl, rfl, by decide,
    submitExam_attempt_invariants sampleState emptyDb "r4" true 15 "u1" sampleExam
      rfl rfl (by decide)⟩

end ExamHub

namespace ExamHub

/-- C7: when a user_roles row with role admin already exists, signUp with
the admin role returns the "admin already exists" error before any write:
the identity provider is not called and no account or role row is created —
the returned state is exactly the input state. -/
theorem signUp_admin_exists_rejected (db : AuthDb)
    (authResult : Except String (Option String)) (roleInsertError : Option String)
    (r : RoleRow) (hr : r ∈ db.user_roles) (hrole : r.role = "admin") :
    signUp db "admin" authResult roleInsertError = (db, some adminAlreadyExistsMsg) := by
  have hmem : r ∈ db.user_roles.filter (fun x => x.role == "admin") :=
    List.mem_filter.mpr ⟨hr, by simp [hrole]⟩
  have h1 : db.user_roles.filter (fun x => x.role == "admin") ≠ [] :=
    List.ne_nil_of_mem hmem
  have h2 : 0 < (db.user_roles.filter (fun x => x.role == "admin")).length :=
    List.length_pos.mpr h1
  have h3 : 0 < ((db.user_roles.filter (fun x => x.role == "admin")).take 1).length := by
    rw [List.length_take]
    omega
  unfold signUp
  rw [if_pos ⟨rfl, h3⟩]

/-- C7 witness: a store that already holds one admin role row rejects a
second admin signup and stays unchanged. -/
theorem signUp_admin_exists_rejected_witness :
    adminRole0 ∈ authDb0.user_roles ∧ adminRole0.role = "admin" ∧
    signUp authDb0 "admin" (.ok (some "a2")) none =
      (authDb0, some adminAlreadyExistsMsg) :=
  ⟨by decide, rfl,
    signUp_admin_exists_rejected authDb0 (.ok (some "a2")) none adminRole0
      (by decide) rfl⟩

/-- C8: selecting a category in the exam authoring form sets the default
duration to the category-specific value — basic 40, prelims 20, mains 30 —
and records the selected category, for every category choice. -/
theorem handleCategoryChange_duration (f : ExamForm) :
    (handleCategoryChange f .basic).duration_minutes = 40 ∧
    (handleCategoryChange f .prelims).duration_minutes = 20 ∧
    (handleCategoryChange f .mains).duration_minutes = 30 ∧
    ∀ c : ExamCategory,
      (handleCategoryChange f c).category = c ∧
      (handleCategoryChange f c).duration_minutes = DURATION_BY_CATEGORY c :=
  ⟨rfl, rfl, rfl, fun c => ⟨rfl, rfl⟩⟩

/-- Helper: the questionsToInsert batch has one row per editor question. -/
theorem questionRowsFrom_length (eid : String) (qs : List EditorQuestion) :
    ∀ i, (questionRowsFrom eid i qs).length = qs.length := by
  induction qs with
  | nil => intro i; rfl
  | cons q rest ih => intro i; simp [questionRowsFrom, ih]

/-- Helper: the j-th row of the batch built from offset i is the j-th editor
question stored with order_index i + j. -/
theorem questionRowsFrom_get (eid : String) (qs : List EditorQuestion) :
    ∀ (i j : Nat) (hj : j < qs.length)
      (hr : j < (questionRowsFrom eid i qs).length),
      (questionRowsFrom eid i qs).get ⟨j, hr⟩ =
        toQuestionRow eid (i + j) (qs.get ⟨j, hj⟩) := by
  induction qs with
  | nil =>
    intro i j hj hr
    exact absurd hj (by simp)
  | cons q rest ih =>
    intro i j hj hr
    cases j with
    | zero => rfl
    | succ k =>
      have hj2 : k < rest.length := Nat.lt_of_succ_lt_succ hj
      have hr2 : k < (questionRowsFrom eid (i + 1) rest).length := by
        rw [questionRowsFrom_length]
        exact hj2
      have h := ih (i + 1) k hj2 hr2
      have hidx : i + 1 + k = i + (k + 1) := by omega
      rw [hidx] at h
      exact h

/-- Helper: every row of the questionsToInsert batch carries the exam id it
was built for. -/
theorem questionRowsFrom_exam_id (eid : String) (qs : List EditorQuestion) :
    ∀ i, ∀ row ∈ questionRowsFrom eid i qs, row.exam_id = eid := by
  induction qs with
  | nil =>
    intro i row h
    simp [questionRowsFrom] at h
  | cons q rest ih =>
    intro i row h
    rcases List.mem_cons.mp h with h | h
    · rw [h]
      rfl
    · exact ih (i + 1) row h

/-- Helper: the edit path of handleSave with all three issued writes
succeeding: the exam row is updated, the exam's old question rows are
removed and the rebuilt batch is appended, and the save reports success. -/
theorem handleSave_edit_eq (db : AdminDb) (userId : Option String) (id : String)
    (exam : ExamForm) (qs : List EditorQuestion)
    (ht : jsTrim exam.title ≠ "") (hq : qs ≠ []) (hall : qs.all questionComplete) :
    handleSave db userId (some id) exam qs true true none true =
      ({ exams := db.exams.map
            (fun p => if p.1 == id then (p.1, updateExamRow p.2 exam) else p),
         questions := db.questions.filter (fun row => !(row.exam_id == id)) ++
           questionsToInsert id qs }, true) := by
  unfold handleSave
  rw [if_neg ht, if_neg hq, if_neg (not_not_intro hall)]
  rfl

end ExamHub

namespace ExamHub

/-- C10 counterexample: the claim says that after a successful save on the
edit path the stored question rows of the exam are exactly the editor's
list, every previously stored row having been deleted. In the source, the
result of the issued questions delete is discarded without being checked:
with the delete failing and the other writes succeeding, the save is still
reported successful, yet the previously stored row survives next to the
newly inserted list. -/
theorem handleSave_ignored_delete_failure_cex :
    (handleSave adminDb0 (some "a1") (some "e1") editorForm0 [editorQ1]
        true false none true).2 = true ∧
    oldRow ∈ (handleSave adminDb0 (some "a1") (some "e1") editorForm0 [editorQ1]
        true false none true).1.questions ∧
    (handleSave adminDb0 (some "a1") (some "e1") editorForm0 [editorQ1]
        true false none true).1.questions.filter (fun row => row.exam_id == "e1") ≠
      questionsToInsert "e1" [editorQ1] := by
  decide

/-- C10 (amended): after a save on the edit path in which the issued delete
also succeeded (its error is ignored by the source, so this is not implied
by the save being reported successful), the stored question rows of the
exam are exactly the questions in the editor's list, each inserted with
order_index equal to its list position 0, 1, …, n−1 regardless of the
question's own order_index field, every previously stored row of the exam
having been deleted before the insert; rows of other exams are untouched. -/
theorem handleSave_edit_rows_exact (db : AdminDb) (userId : Option String)
    (id : String) (exam : ExamForm) (qs : List EditorQuestion)
    (ht : jsTrim exam.title ≠ "") (hq : qs ≠ []) (hall : qs.all questionComplete) :
    (handleSave db userId (some id) exam qs true true none true).2 = true ∧
    (handleSave db userId (some id) exam qs true true none true).1.questions =
      db.questions.filter (fun row => !(row.exam_id == id)) ++
        questionsToInsert id qs ∧
    (handleSave db userId (some id) exam qs true true none true).1.questions.filter
        (fun row => row.exam_id == id) = questionsToInsert id qs ∧
    (questionsToInsert id qs).length = qs.length ∧
    ∀ j (hj : j < qs.length) (hr : j < (questionsToInsert id qs).length),
      (questionsToInsert id qs).get ⟨j, hr⟩ = toQuestionRow id j (qs.get ⟨j, hj⟩) := by
  have heq := handleSave_edit_eq db userId id exam qs ht hq hall
  refine ⟨by rw [heq], by rw [heq], ?_, questionRowsFrom_length id qs 0, ?_⟩
  · rw [heq]
    show (db.questions.filter _ ++ questionsToInsert id qs).filter _ = _
    rw [List.filter_append]
    have h1 : (db.questions.filter (fun row => !(row.exam_id == id))).filter
        (fun row => row.exam_id == id) = [] := by
      rw [List.filter_eq_nil_iff]
      intro a ha
      have h2 := (List.mem_filter.mp ha).2
      simp only [Bool.not_eq_true'] at h2
      simp [h2]
    have h2 : (questionsToInsert id qs).filter (fun row => row.exam_id == id) =
        questionsToInsert id qs := by
      rw [List.filter_eq_self]
      intro a ha
      have h3 := questionRowsFrom_exam_id id qs 0 a ha
      simp [h3]
    rw [h1, h2, List.nil_append]
  · intro j hj hr
    have h := questionRowsFrom_get id qs 0 j hj hr
    rw [Nat.zero_add] at h
    exact h

/-- C10 witness: the amended claim at the one-question sample editor state;
the stored row for the exam is the new question with order_index 0, even
though its editor record carries order_index 5 and an old row with
order_index 0 was stored before. -/
theorem handleSave_edit_rows_exact_witness :
    jsTrim editorForm0.title ≠ "" ∧ ([editorQ1] : List EditorQuestion) ≠ [] ∧
    ([editorQ1].all questionComplete : Bool) = true ∧
    ((handleSave adminDb0 (some "a1") (some "e1") editorForm0 [editorQ1]
        true true none true).2 = true ∧
      (handleSave adminDb0 (some "a1") (some "e1") editorForm0 [editorQ1]
          true true none true).1.questions =
        adminDb0.questions.filter (fun row => !(row.exam_id == "e1")) ++
          questionsToInsert "e1" [editorQ1] ∧
      (handleSave adminDb0 (some "a1") (some "e1") editorForm0 [editorQ1]
          true true none true).1.questions.filter
          (fun row => row.exam_id == "e1") = questionsToInsert "e1" [editorQ1] ∧
      (questionsToInsert "e1" [editorQ1]).length = ([editorQ1] : List EditorQuestion).length ∧
      ∀ j (hj : j < ([editorQ1] : List EditorQuestion).length)
        (hr : j < (questionsToInsert "e1" [editorQ1]).length),
        (questionsToInsert "e1" [editorQ1]).get ⟨j, hr⟩ =
          toQuestionRow "e1" j (([editorQ1] : List EditorQuestion).get ⟨j, hj⟩)) :=
  ⟨by decide, by decide, by decide,
    handleSave_edit_rows_exact adminDb0 (some "a1") "e1" editorForm0 [editorQ1]
      (by decide) (by decide) (by decide)⟩

end ExamHub
